import Mathlib

/-!
Verification of the boulder certificate-ceremony core.

The development shallowly embeds the ceremony tool's configuration model and
validation logic. `GetExtWithOID` is embedded directly from
`linter/lints/common.go`. The ceremony configuration validators
(`keyGenConfig.validate`, `rootConfig.validate`, ..., `checkOutputFile`,
`signAndWriteCert`) have only their tests in the repository snapshot, so their
bodies are modelled from the specification (see the doc comment on each).
Go `error` results become `Option String` (`none` = success, `some msg` =
the single error message); the filesystem consulted by `checkOutputFile` is
an explicit list of existing paths.
-/

/-- Embedded from `linter/lints/common.go`: `pkix.Extension`, with
`asn1.ObjectIdentifier` as a list of integers and the value bytes as a list
of naturals. -/
structure Extension where
  Id : List Int
  Critical : Bool
  Value : List Nat
deriving DecidableEq, Repr

/-- Embedded from `linter/lints/common.go`: return the extension with the
given OID if it exists, or `none` otherwise. The Go loop scans the slice in
order and returns on the first `ext.Id.Equal(oid)`; `ObjectIdentifier.Equal`
is componentwise integer equality, i.e. list equality here. The embedding is
pure: the input list is never modified. -/
def GetExtWithOID : List Extension → List Int → Option Extension
  | [], _ => none
  | ext :: rest, oid => if ext.Id = oid then some ext else GetExtWithOID rest oid

/-- Sequencing of validation rules: the result of a validator that runs a
list of checks in order and stops at the first failing one. -/
def firstErr : List (Option String) → Option String
  | [] => none
  | some e :: _ => some e
  | none :: rest => firstErr rest

/-- Modelled from the spec: `checkOutputFile` from the ceremony tool is not
in the snapshot (only its tests are). Per the spec, a required output path
must be present; per the tests, an empty path fails with
"outputs.NAME is required" and a path at which a file already exists fails
with a message containing "already exists". The filesystem is the explicit
list `fs` of paths at which a file exists. -/
def checkOutputFile (fs : List String) (path name : String) : Option String :=
  if path = "" then some ("outputs." ++ name ++ " is required")
  else if path ∈ fs then some ("outputs." ++ name ++ " is " ++ path ++ ", which " ++ "already exists")
  else none

/-- Modelled from the spec: the ceremony key-generation profile
(`keyGenConfig`): algorithm kind, RSA modulus length, ECDSA curve. -/
structure keyGenConfig where
  «Type» : String
  RSAModLength : Nat
  ECDSACurve : String
deriving DecidableEq, Repr

/-- Modelled from the spec: `keyGenConfig.validate` is not in the snapshot
(only its tests are). Per the spec: algorithm required; if `rsa`, modulus in
2048 or 4096 and no curve field set; if `ecdsa`, curve one of P-224, P-256,
P-384, P-521 and no modulus field set. Error messages and check order are
those exercised by `TestKeyGenConfigValidate`. -/
def keyGenConfig.validate (k : keyGenConfig) : Option String :=
  if k.«Type» = "" then some "key.type is required"
  else if k.«Type» ≠ "rsa" ∧ k.«Type» ≠ "ecdsa" then
    some "key.type can only be \x27rsa\x27 or \x27ecdsa\x27"
  else if k.«Type» = "rsa" ∧ k.RSAModLength ≠ 2048 ∧ k.RSAModLength ≠ 4096 then
    some "key.rsa-mod-length can only be 2048 or 4096"
  else if k.«Type» = "rsa" ∧ k.ECDSACurve ≠ "" then
    some "if key.type = \x27rsa\x27 then key.ecdsa-curve is not used"
  else if k.«Type» = "ecdsa" ∧ ¬(k.ECDSACurve = "P-224" ∨ k.ECDSACurve = "P-256" ∨
      k.ECDSACurve = "P-384" ∨ k.ECDSACurve = "P-521") then
    some "key.ecdsa-curve can only be \x27P-224\x27, \x27P-256\x27, \x27P-384\x27, or \x27P-521\x27"
  else if k.«Type» = "ecdsa" ∧ k.RSAModLength ≠ 0 then
    some "if key.type = \x27ecdsa\x27 then key.rsa-mod-length is not used"
  else none

/-- Modelled from the spec: the PKCS#11 configuration of a key-generating
ceremony (root certificate, key): module path and the label under which the
generated key is stored. -/
structure PKCS11KeyGenConfig where
  Module : String
  StoreLabel : String
deriving DecidableEq, Repr

/-- Modelled from the spec: the PKCS#11 configuration of a signing ceremony
(intermediate, cross-certificate, CSR, OCSP, CRL): module path and the label
of the signing key. -/
structure PKCS11SigningConfig where
  Module : String
  SigningLabel : String
deriving DecidableEq, Repr

/-- Modelled from the spec: validation of the key-generation PKCS#11 block,
as exercised by the first two cases of every key-generating config test. -/
def PKCS11KeyGenConfig.validate (p : PKCS11KeyGenConfig) : Option String :=
  if p.Module = "" then some "pkcs11.module is required"
  else if p.StoreLabel = "" then some "pkcs11.store-key-with-label is required"
  else none

/-- Modelled from the spec: validation of the signing PKCS#11 block, as
exercised by the first two cases of every signing config test. -/
def PKCS11SigningConfig.validate (p : PKCS11SigningConfig) : Option String :=
  if p.Module = "" then some "pkcs11.module is required"
  else if p.SigningLabel = "" then some "pkcs11.signing-key-label is required"
  else none

/-- Modelled from the spec: a certificate-policy OID entry of a certificate
profile. -/
structure policyInfoConfig where
  OID : String
deriving DecidableEq, Repr

/-- Modelled from the spec: the certificate profile shared by the root,
intermediate, cross-certificate and CSR configs: validity window, signature
algorithm, subject fields, optional AIA/CRL/issuer URLs, policy OIDs. -/
structure certProfile where
  NotBefore : String
  NotAfter : String
  SignatureAlgorithm : String
  CommonName : String
  Organization : String
  Country : String
  OCSPURL : String
  CRLURL : String
  IssuerURL : String
  Policies : List policyInfoConfig
deriving DecidableEq, Repr

/-- Modelled from the spec: the kind of certificate artifact a profile is
validated for. -/
inductive certType where
  | rootCert
  | intermediateCert
  | crossCert
  | requestCert
deriving DecidableEq, Repr

open certType

/-- Modelled from the spec: `certProfile.verify` is not in the snapshot.
Per the spec, for root/intermediate/cross-certificates not-before, not-after,
signature-algorithm, common-name, organization and country are all required;
a CSR needs no time window but requires common-name, organization, country;
for intermediate and cross-certificates only, the policy-OID set must have
cardinality exactly one, with failure message
"policy should be exactly BRs domain-validated for subordinate CAs". -/
def certProfile.verify (p : certProfile) (ct : certType) : Option String :=
  if ct ≠ requestCert ∧ p.NotBefore = "" then some "not-before is required"
  else if ct ≠ requestCert ∧ p.NotAfter = "" then some "not-after is required"
  else if ct ≠ requestCert ∧ p.SignatureAlgorithm = "" then some "signature-algorithm is required"
  else if p.CommonName = "" then some "common-name is required"
  else if p.Organization = "" then some "organization is required"
  else if p.Country = "" then some "country is required"
  else if (ct = intermediateCert ∨ ct = crossCert) ∧ p.Policies.length ≠ 1 then
    some "policy should be exactly BRs domain-validated for subordinate CAs"
  else none

/-- Modelled from the spec: the outputs block of a root-certificate config. -/
structure rootOutputs where
  PublicKeyPath : String
  CertificatePath : String
deriving DecidableEq, Repr

/-- Modelled from the spec: the root-certificate ceremony config. -/
structure rootConfig where
  PKCS11 : PKCS11KeyGenConfig
  Key : keyGenConfig
  Outputs : rootOutputs
  CertProfile : certProfile
  SkipLints : List String
deriving DecidableEq, Repr

/-- Modelled from the spec: `rootConfig.validate` is not in the snapshot.
Check order per the spec and `TestRootConfigValidate`: pkcs11.module, then
pkcs11.store-key-with-label, then the key-generation fields, then the output
paths (via `checkOutputFile` against the filesystem `fs`), then the
certificate-profile fields. It stops at the first failing rule. -/
def rootConfig.validate (fs : List String) (c : rootConfig) : Option String :=
  match c.PKCS11.validate with
  | some e => some e
  | none =>
  match c.Key.validate with
  | some e => some e
  | none =>
  match checkOutputFile fs c.Outputs.PublicKeyPath "public-key-path" with
  | some e => some e
  | none =>
  match checkOutputFile fs c.Outputs.CertificatePath "certificate-path" with
  | some e => some e
  | none => c.CertProfile.verify rootCert

/-- Modelled from the spec: the inputs block of an intermediate config. -/
structure intermediateInputs where
  PublicKeyPath : String
  IssuerCertificatePath : String
deriving DecidableEq, Repr

/-- Modelled from the spec: the outputs block of the intermediate, cross-cert
configs: a single certificate path. -/
structure certOutputs where
  CertificatePath : String
deriving DecidableEq, Repr

/-- Modelled from the spec: the intermediate-certificate ceremony config. -/
structure intermediateConfig where
  PKCS11 : PKCS11SigningConfig
  Inputs : intermediateInputs
  Outputs : certOutputs
  CertProfile : certProfile
  SkipLints : List String
deriving DecidableEq, Repr

/-- Modelled from the spec: `intermediateConfig.validate` is not in the
snapshot. Check order per the spec and `TestIntermediateConfigValidate`:
pkcs11.module, pkcs11.signing-key-label, inputs.public-key-path,
inputs.issuer-certificate, outputs.certificate-path, then the certificate
profile for the given kind (the Go method takes the `certType` argument). -/
def intermediateConfig.validate (fs : List String) (ct : certType) (c : intermediateConfig) : Option String :=
  match c.PKCS11.validate with
  | some e => some e
  | none =>
  if c.Inputs.PublicKeyPath = "" then some "inputs.public-key-path is required"
  else if c.Inputs.IssuerCertificatePath = "" then some "inputs.issuer-certificate is required"
  else
  match checkOutputFile fs c.Outputs.CertificatePath "certificate-path" with
  | some e => some e
  | none => c.CertProfile.verify ct

/-- Modelled from the spec: the inputs block of a cross-certificate config. -/
structure crossCertInputs where
  PublicKeyPath : String
  IssuerCertificatePath : String
  CertificateToCrossSignPath : String
deriving DecidableEq, Repr

/-- Modelled from the spec: the cross-certificate ceremony config. -/
structure crossCertConfig where
  PKCS11 : PKCS11SigningConfig
  Inputs : crossCertInputs
  Outputs : certOutputs
  CertProfile : certProfile
  SkipLints : List String
deriving DecidableEq, Repr

/-- Modelled from the spec: `crossCertConfig.validate` is not in the
snapshot. Check order per the spec and `TestCrossCertConfigValidate`:
pkcs11.module, pkcs11.signing-key-label, inputs.public-key-path,
inputs.issuer-certificate, inputs.certificate-to-cross-sign-path,
outputs.certificate-path, then the certificate profile as a cross-cert. -/
def crossCertConfig.validate (fs : List String) (c : crossCertConfig) : Option String :=
  match c.PKCS11.validate with
  | some e => some e
  | none =>
  if c.Inputs.PublicKeyPath = "" then some "inputs.public-key-path is required"
  else if c.Inputs.IssuerCertificatePath = "" then some "inputs.issuer-certificate is required"
  else if c.Inputs.CertificateToCrossSignPath = "" then
    some "inputs.certificate-to-cross-sign-path is required"
  else
  match checkOutputFile fs c.Outputs.CertificatePath "certificate-path" with
  | some e => some e
  | none => c.CertProfile.verify crossCert

/-- Modelled from the spec: the inputs block of a CSR config. -/
structure csrInputs where
  PublicKeyPath : String
deriving DecidableEq, Repr

/-- Modelled from the spec: the outputs block of a CSR config. -/
structure csrOutputs where
  CSRPath : String
deriving DecidableEq, Repr

/-- Modelled from the spec: the CSR ceremony config. -/
structure csrConfig where
  PKCS11 : PKCS11SigningConfig
  Inputs : csrInputs
  Outputs : csrOutputs
  CertProfile : certProfile
deriving DecidableEq, Repr

/-- Modelled from the spec: `csrConfig.validate` is not in the snapshot.
Check order per the spec and `TestCSRConfigValidate`: pkcs11.module,
pkcs11.signing-key-label, inputs.public-key-path, outputs.csr-path, then the
certificate profile as a request (no time window needed). -/
def csrConfig.validate (fs : List String) (c : csrConfig) : Option String :=
  match c.PKCS11.validate with
  | some e => some e
  | none =>
  if c.Inputs.PublicKeyPath = "" then some "inputs.public-key-path is required"
  else
  match checkOutputFile fs c.Outputs.CSRPath "csr-path" with
  | some e => some e
  | none => c.CertProfile.verify requestCert

/-- Modelled from the spec: the outputs block of a key ceremony config. -/
structure keyOutputs where
  PublicKeyPath : String
  PKCS11ConfigPath : String
deriving DecidableEq, Repr

/-- Modelled from the spec: the key-generation ceremony config. -/
structure keyConfig where
  PKCS11 : PKCS11KeyGenConfig
  Key : keyGenConfig
  Outputs : keyOutputs
deriving DecidableEq, Repr

/-- Modelled from the spec: `keyConfig.validate` is not in the snapshot.
Check order per the spec and `TestKeyConfigValidate`: pkcs11.module,
pkcs11.store-key-with-label, the key-generation fields, then the output
paths. -/
def keyConfig.validate (fs : List String) (c : keyConfig) : Option String :=
  match c.PKCS11.validate with
  | some e => some e
  | none =>
  match c.Key.validate with
  | some e => some e
  | none => checkOutputFile fs c.Outputs.PublicKeyPath "public-key-path"

/-- Modelled from the spec: the inputs block of an OCSP-response config. -/
structure ocspInputs where
  CertificatePath : String
  IssuerCertificatePath : String
  DelegatedIssuerCertificatePath : String
deriving DecidableEq, Repr

/-- Modelled from the spec: the outputs block of an OCSP-response config. -/
structure ocspOutputs where
  ResponsePath : String
deriving DecidableEq, Repr

/-- Modelled from the spec: the OCSP profile: this-update and next-update
timestamps and the status, which may only be "good" or "revoked". -/
structure ocspProfile where
  ThisUpdate : String
  NextUpdate : String
  Status : String
deriving DecidableEq, Repr

/-- Modelled from the spec: the OCSP-response ceremony config. -/
structure ocspRespConfig where
  PKCS11 : PKCS11SigningConfig
  Inputs : ocspInputs
  Outputs : ocspOutputs
  OCSPProfile : ocspProfile
deriving DecidableEq, Repr

/-- Modelled from the spec: `ocspRespConfig.validate` is not in the snapshot.
Check order per the spec and `TestOCSPRespConfig`: pkcs11.module,
pkcs11.signing-key-label, inputs.certificate-path,
inputs.issuer-certificate-path, outputs.response-path,
ocsp-profile.this-update, ocsp-profile.next-update, then the status, which
must be "good" or "revoked" (any other value, the empty string included, is
rejected). -/
def ocspRespConfig.validate (fs : List String) (c : ocspRespConfig) : Option String :=
  match c.PKCS11.validate with
  | some e => some e
  | none =>
  if c.Inputs.CertificatePath = "" then some "inputs.certificate-path is required"
  else if c.Inputs.IssuerCertificatePath = "" then some "inputs.issuer-certificate-path is required"
  else
  match checkOutputFile fs c.Outputs.ResponsePath "response-path" with
  | some e => some e
  | none =>
  if c.OCSPProfile.ThisUpdate = "" then some "ocsp-profile.this-update is required"
  else if c.OCSPProfile.NextUpdate = "" then some "ocsp-profile.next-update is required"
  else if c.OCSPProfile.Status ≠ "good" ∧ c.OCSPProfile.Status ≠ "revoked" then
    some "ocsp-profile.status must be either \"good\" or \"revoked\""
  else none

/-- Modelled from the spec: one revoked-certificate declaration of a CRL
profile: the certificate reference, revocation date and reason code. -/
structure revokedCertificate where
  CertificatePath : String
  RevocationDate : String
  RevocationReason : Int
deriving DecidableEq, Repr

/-- Modelled from the spec: the CRL profile: update window, CRL number,
the ordered revoked-certificate list and the issuing-distribution-point. -/
structure crlProfileConfig where
  ThisUpdate : String
  NextUpdate : String
  Number : Int
  RevokedCertificates : List revokedCertificate
  IssuingDistributionPoint : String
deriving DecidableEq, Repr

/-- Modelled from the spec: the inputs block of a CRL config. -/
structure crlInputs where
  IssuerCertificatePath : String
deriving DecidableEq, Repr

/-- Modelled from the spec: the outputs block of a CRL config. -/
structure crlOutputs where
  CRLPath : String
deriving DecidableEq, Repr

/-- Modelled from the spec: the CRL ceremony config. -/
structure crlConfig where
  PKCS11 : PKCS11SigningConfig
  Inputs : crlInputs
  Outputs : crlOutputs
  CRLProfile : crlProfileConfig
deriving DecidableEq, Repr

/-- Modelled from the spec: validation of the revoked-certificate list of a
CRL profile, in declaration order; each entry requires a certificate path, a
revocation date and a non-default (non-zero) revocation reason. -/
def crlEntriesValidate : List revokedCertificate → Option String
  | [] => none
  | rc :: rest =>
    if rc.CertificatePath = "" then
      some "crl-profile.revoked-certificates.certificate-path is required"
    else if rc.RevocationDate = "" then
      some "crl-profile.revoked-certificates.revocation-date is required"
    else if rc.RevocationReason = 0 then
      some "crl-profile.revoked-certificates.revocation-reason is required"
    else crlEntriesValidate rest

/-- Modelled from the spec: `crlConfig.validate` is not in the snapshot.
Check order per the spec and `TestCRLConfig`: pkcs11.module,
pkcs11.signing-key-label, inputs.issuer-certificate-path, outputs.crl-path,
crl-profile.this-update, crl-profile.next-update, the non-zero CRL number,
the issuing-distribution-point (checked before the revoked entries, as the
"no issuing distribution point path provided" test case shows), then each
revoked entry in order. -/
def crlConfig.validate (fs : List String) (c : crlConfig) : Option String :=
  match c.PKCS11.validate with
  | some e => some e
  | none =>
  if c.Inputs.IssuerCertificatePath = "" then some "inputs.issuer-certificate-path is required"
  else
  match checkOutputFile fs c.Outputs.CRLPath "crl-path" with
  | some e => some e
  | none =>
  if c.CRLProfile.ThisUpdate = "" then some "crl-profile.this-update is required"
  else if c.CRLProfile.NextUpdate = "" then some "crl-profile.next-update is required"
  else if c.CRLProfile.Number = 0 then some "crl-profile.number must be non-zero"
  else if c.CRLProfile.IssuingDistributionPoint = "" then
    some "crl-profile.issuing-distribution-point is required"
  else crlEntriesValidate c.CRLProfile.RevokedCertificates

/-- Modelled from the spec: the observable outcome of the certificate write
step: the returned certificate (DER bytes), the files written (path and
bytes), and the error, if any. -/
structure signAndWriteResult where
  cert : Option (List Nat)
  writes : List (String × List Nat)
  err : Option String
deriving Repr

/-- Modelled from the spec: `signAndWriteCert` is not in the snapshot (only
`TestSignAndWriteNoLintCert` is). Its Go signature takes the to-be-signed
certificate, the issuer certificate, the subject public key, the HSM signer
and the lint certificate recording the pre-issuance lint pass, plus the
output path. Per the spec's safety invariant, when no lint outcome is
recorded (nil lint certificate) the step fails with
"linting was not performed prior to issuance" and nothing is written; with a
recorded lint outcome it signs the template over the issuer material via the
injected signer capability and writes the resulting artifact to the output
path. Certificates and keys are abstracted to their encoded bytes and the
signer to a function on bytes; Go nil pointers are `none`. -/
def signAndWriteCert (tbs issuer : Option (List Nat)) (subjectPubKey : Option (List Nat))
    (signer : Option (List Nat → List Nat)) (lintCert : Option (List Nat))
    (certPath : String) : signAndWriteResult :=
  match lintCert with
  | none => { cert := none, writes := [], err := some "linting was not performed prior to issuance" }
  | some _ =>
    let der := (signer.getD id) ((tbs.getD []) ++ (issuer.getD []) ++ (subjectPubKey.getD []))
    { cert := some der, writes := [(certPath, der)], err := none }

/-- Ordered rule list of the key-generation PKCS#11 block, used to state the
deterministic-ordering contract. -/
def pkcs11KeyGenChecks (p : PKCS11KeyGenConfig) : List (Option String) :=
  [ if p.Module = "" then some "pkcs11.module is required" else none,
    if p.StoreLabel = "" then some "pkcs11.store-key-with-label is required" else none ]

/-- Ordered rule list of the signing PKCS#11 block. -/
def pkcs11SigningChecks (p : PKCS11SigningConfig) : List (Option String) :=
  [ if p.Module = "" then some "pkcs11.module is required" else none,
    if p.SigningLabel = "" then some "pkcs11.signing-key-label is required" else none ]

/-- Ordered rule list of the key-generation fields. -/
def keyGenChecks (k : keyGenConfig) : List (Option String) :=
  [ if k.«Type» = "" then some "key.type is required" else none,
    if k.«Type» ≠ "rsa" ∧ k.«Type» ≠ "ecdsa" then
      some "key.type can only be \x27rsa\x27 or \x27ecdsa\x27" else none,
    if k.«Type» = "rsa" ∧ k.RSAModLength ≠ 2048 ∧ k.RSAModLength ≠ 4096 then
      some "key.rsa-mod-length can only be 2048 or 4096" else none,
    if k.«Type» = "rsa" ∧ k.ECDSACurve ≠ "" then
      some "if key.type = \x27rsa\x27 then key.ecdsa-curve is not used" else none,
    if k.«Type» = "ecdsa" ∧ ¬(k.ECDSACurve = "P-224" ∨ k.ECDSACurve = "P-256" ∨
        k.ECDSACurve = "P-384" ∨ k.ECDSACurve = "P-521") then
      some "key.ecdsa-curve can only be \x27P-224\x27, \x27P-256\x27, \x27P-384\x27, or \x27P-521\x27" else none,
    if k.«Type» = "ecdsa" ∧ k.RSAModLength ≠ 0 then
      some "if key.type = \x27ecdsa\x27 then key.rsa-mod-length is not used" else none ]

/-- Ordered rule list of the certificate profile, by artifact kind. -/
def profileChecks (p : certProfile) (ct : certType) : List (Option String) :=
  [ if ct ≠ requestCert ∧ p.NotBefore = "" then some "not-before is required" else none,
    if ct ≠ requestCert ∧ p.NotAfter = "" then some "not-after is required" else none,
    if ct ≠ requestCert ∧ p.SignatureAlgorithm = "" then
      some "signature-algorithm is required" else none,
    if p.CommonName = "" then some "common-name is required" else none,
    if p.Organization = "" then some "organization is required" else none,
    if p.Country = "" then some "country is required" else none,
    if (ct = intermediateCert ∨ ct = crossCert) ∧ p.Policies.length ≠ 1 then
      some "policy should be exactly BRs domain-validated for subordinate CAs" else none ]

/-- Ordered rule list of a revoked-certificate entry. -/
def crlEntryChecks (rc : revokedCertificate) : List (Option String) :=
  [ if rc.CertificatePath = "" then
      some "crl-profile.revoked-certificates.certificate-path is required" else none,
    if rc.RevocationDate = "" then
      some "crl-profile.revoked-certificates.revocation-date is required" else none,
    if rc.RevocationReason = 0 then
      some "crl-profile.revoked-certificates.revocation-reason is required" else none ]

/-- Ordered rule list of a root config: required PKCS#11 fields, then the key
fields, then the output paths, then the certificate profile. -/
def rootChecks (fs : List String) (c : rootConfig) : List (Option String) :=
  pkcs11KeyGenChecks c.PKCS11 ++
  (keyGenChecks c.Key ++
  ([checkOutputFile fs c.Outputs.PublicKeyPath "public-key-path",
    checkOutputFile fs c.Outputs.CertificatePath "certificate-path"] ++
  profileChecks c.CertProfile rootCert))

/-- Ordered rule list of an intermediate config. -/
def intermediateChecks (fs : List String) (ct : certType) (c : intermediateConfig) :
    List (Option String) :=
  pkcs11SigningChecks c.PKCS11 ++
  ([ if c.Inputs.PublicKeyPath = "" then some "inputs.public-key-path is required" else none,
     if c.Inputs.IssuerCertificatePath = "" then
       some "inputs.issuer-certificate is required" else none,
     checkOutputFile fs c.Outputs.CertificatePath "certificate-path" ] ++
  profileChecks c.CertProfile ct)

/-- Ordered rule list of a cross-certificate config. -/
def crossCertChecks (fs : List String) (c : crossCertConfig) : List (Option String) :=
  pkcs11SigningChecks c.PKCS11 ++
  ([ if c.Inputs.PublicKeyPath = "" then some "inputs.public-key-path is required" else none,
     if c.Inputs.IssuerCertificatePath = "" then
       some "inputs.issuer-certificate is required" else none,
     if c.Inputs.CertificateToCrossSignPath = "" then
       some "inputs.certificate-to-cross-sign-path is required" else none,
     checkOutputFile fs c.Outputs.CertificatePath "certificate-path" ] ++
  profileChecks c.CertProfile crossCert)

/-- Ordered rule list of a CSR config. -/
def csrChecks (fs : List String) (c : csrConfig) : List (Option String) :=
  pkcs11SigningChecks c.PKCS11 ++
  ([ if c.Inputs.PublicKeyPath = "" then some "inputs.public-key-path is required" else none,
     checkOutputFile fs c.Outputs.CSRPath "csr-path" ] ++
  profileChecks c.CertProfile requestCert)

/-- Ordered rule list of a key config. -/
def keyChecks (fs : List String) (c : keyConfig) : List (Option String) :=
  pkcs11KeyGenChecks c.PKCS11 ++
  (keyGenChecks c.Key ++
  [checkOutputFile fs c.Outputs.PublicKeyPath "public-key-path"])

/-- Ordered rule list of an OCSP-response config. -/
def ocspChecks (fs : List String) (c : ocspRespConfig) : List (Option String) :=
  pkcs11SigningChecks c.PKCS11 ++
  [ if c.Inputs.CertificatePath = "" then some "inputs.certificate-path is required" else none,
    if c.Inputs.IssuerCertificatePath = "" then
      some "inputs.issuer-certificate-path is required" else none,
    checkOutputFile fs c.Outputs.ResponsePath "response-path",
    if c.OCSPProfile.ThisUpdate = "" then some "ocsp-profile.this-update is required" else none,
    if c.OCSPProfile.NextUpdate = "" then some "ocsp-profile.next-update is required" else none,
    if c.OCSPProfile.Status ≠ "good" ∧ c.OCSPProfile.Status ≠ "revoked" then
      some "ocsp-profile.status must be either \"good\" or \"revoked\"" else none ]

/-- Ordered rule list of a CRL config: required fields first, then the
per-entry checks in declaration order. -/
def crlChecks (fs : List String) (c : crlConfig) : List (Option String) :=
  pkcs11SigningChecks c.PKCS11 ++
  ([ if c.Inputs.IssuerCertificatePath = "" then
       some "inputs.issuer-certificate-path is required" else none,
     checkOutputFile fs c.Outputs.CRLPath "crl-path",
     if c.CRLProfile.ThisUpdate = "" then some "crl-profile.this-update is required" else none,
     if c.CRLProfile.NextUpdate = "" then some "crl-profile.next-update is required" else none,
     if c.CRLProfile.Number = 0 then some "crl-profile.number must be non-zero" else none,
     if c.CRLProfile.IssuingDistributionPoint = "" then
       some "crl-profile.issuing-distribution-point is required" else none ] ++
  (c.CRLProfile.RevokedCertificates.map crlEntryChecks).flatten)

/-- The sequencing of two rule lists runs the first list to completion only
when it produces no error. -/
theorem firstErr_append (l₁ l₂ : List (Option String)) :
    firstErr (l₁ ++ l₂) =
      match firstErr l₁ with
      | some e => some e
      | none => firstErr l₂ := by
  induction l₁ with
  | nil => simp [firstErr]
  | cons x rest ih => cases x <;> simp [firstErr, ih]

/-- The key-generation PKCS#11 validator is the first error of its ordered
rule list. -/
theorem pkcs11KeyGen_validate_eq (p : PKCS11KeyGenConfig) :
    p.validate = firstErr (pkcs11KeyGenChecks p) := by
  unfold PKCS11KeyGenConfig.validate pkcs11KeyGenChecks
  split_ifs <;> simp [firstErr]

/-- The signing PKCS#11 validator is the first error of its ordered rule
list. -/
theorem pkcs11Signing_validate_eq (p : PKCS11SigningConfig) :
    p.validate = firstErr (pkcs11SigningChecks p) := by
  unfold PKCS11SigningConfig.validate pkcs11SigningChecks
  split_ifs <;> simp [firstErr]

/-- The key-generation validator is the first error of its ordered rule
list. -/
theorem keyGen_validate_eq (k : keyGenConfig) :
    k.validate = firstErr (keyGenChecks k) := by
  unfold keyGenConfig.validate keyGenChecks
  split_ifs <;> simp [firstErr]

/-- The certificate-profile validator is the first error of its ordered rule
list. -/
theorem profile_verify_eq (p : certProfile) (ct : certType) :
    p.verify ct = firstErr (profileChecks p ct) := by
  unfold certProfile.verify profileChecks
  split_ifs <;> simp [firstErr]

/-- The revoked-entry loop is the first error of the concatenated per-entry
rule lists, in declaration order. -/
theorem crlEntries_validate_eq (l : List revokedCertificate) :
    crlEntriesValidate l = firstErr ((l.map crlEntryChecks).flatten) := by
  induction l with
  | nil => simp [crlEntriesValidate, firstErr]
  | cons x rest ih =>
    unfold crlEntriesValidate
    simp only [List.map_cons, List.flatten_cons, firstErr_append]
    split_ifs <;> simp_all [crlEntryChecks, firstErr]

/-- The root validator is the first error of its ordered rule list. -/
theorem root_validate_eq (fs : List String) (c : rootConfig) :
    rootConfig.validate fs c = firstErr (rootChecks fs c) := by
  unfold rootConfig.validate rootChecks
  rw [firstErr_append, firstErr_append, firstErr_append,
    ← pkcs11KeyGen_validate_eq, ← keyGen_validate_eq, ← profile_verify_eq]
  cases c.PKCS11.validate <;> cases c.Key.validate <;>
    cases checkOutputFile fs c.Outputs.PublicKeyPath "public-key-path" <;>
    cases checkOutputFile fs c.Outputs.CertificatePath "certificate-path" <;>
    simp [firstErr]

/-- The intermediate validator is the first error of its ordered rule
list. -/
theorem intermediate_validate_eq (fs : List String) (ct : certType) (c : intermediateConfig) :
    intermediateConfig.validate fs ct c = firstErr (intermediateChecks fs ct c) := by
  unfold intermediateConfig.validate intermediateChecks
  rw [firstErr_append, firstErr_append, ← pkcs11Signing_validate_eq, ← profile_verify_eq]
  cases c.PKCS11.validate with
  | none => split_ifs <;> cases checkOutputFile fs c.Outputs.CertificatePath "certificate-path" <;> simp [firstErr]
  | some e => simp [firstErr]

/-- The cross-certificate validator is the first error of its ordered rule
list. -/
theorem crossCert_validate_eq (fs : List String) (c : crossCertConfig) :
    crossCertConfig.validate fs c = firstErr (crossCertChecks fs c) := by
  unfold crossCertConfig.validate crossCertChecks
  rw [firstErr_append, firstErr_append, ← pkcs11Signing_validate_eq, ← profile_verify_eq]
  cases c.PKCS11.validate with
  | none => split_ifs <;> cases checkOutputFile fs c.Outputs.CertificatePath "certificate-path" <;> simp [firstErr]
  | some e => simp [firstErr]

/-- The CSR validator is the first error of its ordered rule list. -/
theorem csr_validate_eq (fs : List String) (c : csrConfig) :
    csrConfig.validate fs c = firstErr (csrChecks fs c) := by
  unfold csrConfig.validate csrChecks
  rw [firstErr_append, firstErr_append, ← pkcs11Signing_validate_eq, ← profile_verify_eq]
  cases c.PKCS11.validate with
  | none => split_ifs <;> cases checkOutputFile fs c.Outputs.CSRPath "csr-path" <;> simp [firstErr]
  | some e => simp [firstErr]

/-- The key validator is the first error of its ordered rule list. -/
theorem key_validate_eq (fs : List String) (c : keyConfig) :
    keyConfig.validate fs c = firstErr (keyChecks fs c) := by
  unfold keyConfig.validate keyChecks
  rw [firstErr_append, firstErr_append, ← pkcs11KeyGen_validate_eq, ← keyGen_validate_eq]
  cases c.PKCS11.validate <;> cases c.Key.validate <;>
    cases checkOutputFile fs c.Outputs.PublicKeyPath "public-key-path" <;>
    simp [firstErr]

/-- The OCSP-response validator is the first error of its ordered rule
list. -/
theorem ocsp_validate_eq (fs : List String) (c : ocspRespConfig) :
    ocspRespConfig.validate fs c = firstErr (ocspChecks fs c) := by
  unfold ocspRespConfig.validate ocspChecks
  rw [firstErr_append, ← pkcs11Signing_validate_eq]
  cases c.PKCS11.validate with
  | none => split_ifs <;> cases checkOutputFile fs c.Outputs.ResponsePath "response-path" <;> simp [firstErr]
  | some e => simp [firstErr]

/-- The CRL validator is the first error of its ordered rule list. -/
theorem crl_validate_eq (fs : List String) (c : crlConfig) :
    crlConfig.validate fs c = firstErr (crlChecks fs c) := by
  unfold crlConfig.validate crlChecks
  rw [firstErr_append, firstErr_append, ← pkcs11Signing_validate_eq, ← crlEntries_validate_eq]
  cases c.PKCS11.validate with
  | none => split_ifs <;> cases checkOutputFile fs c.Outputs.CRLPath "crl-path" <;> simp [firstErr]
  | some e => simp [firstErr]

/-- C10: for every list of X.509 extensions and every OID, `GetExtWithOID`
returns the first extension in list order whose identifier equals the given
OID, and returns `none` if and only if no extension in the list has that
identifier. The embedding is a pure function on an immutable list, so the
input list is never modified. -/
theorem GetExtWithOID_first_match (exts : List Extension) (oid : List Int) :
    (GetExtWithOID exts oid = none ↔ ∀ e ∈ exts, e.Id ≠ oid) ∧
    (∀ e, GetExtWithOID exts oid = some e →
      e.Id = oid ∧ ∃ i, ∃ hi : i < exts.length,
        exts.get ⟨i, hi⟩ = e ∧ ∀ e2 ∈ exts.take i, e2.Id ≠ oid) := by
  induction exts with
  | nil => simp [GetExtWithOID]
  | cons x rest ih =>
    by_cases hx : x.Id = oid
    · refine ⟨by simp [GetExtWithOID, hx], ?_⟩
      intro e he
      simp only [GetExtWithOID, if_pos hx] at he
      obtain rfl : x = e := by injection he
      exact ⟨hx, 0, by simp, rfl, by simp⟩
    · refine ⟨by simp [GetExtWithOID, hx, ih.1], ?_⟩
      intro e he
      simp only [GetExtWithOID, if_neg hx] at he
      obtain ⟨hid, i, hi, hget, htake⟩ := ih.2 e he
      refine ⟨hid, i + 1, Nat.succ_lt_succ hi, hget, ?_⟩
      intro e2 he2
      rw [List.take_succ_cons] at he2
      rcases List.mem_cons.mp he2 with rfl | hmem
      · exact hx
      · exact htake e2 hmem

/-- Witness for C10: on a concrete two-element extension list the function
returns `none` for an absent OID, and returns the first of two extensions
sharing the searched identifier. -/
theorem GetExtWithOID_first_match_witness :
    GetExtWithOID [Extension.mk [1, 2] false [7]] [1, 3] = none ∧
    ((Extension.mk [1, 2] false [7]).Id = [1, 2] ∧ ∃ i, ∃ hi :
        i < ([Extension.mk [1, 2] false [7], Extension.mk [1, 2] true [8]] : List Extension).length,
      ([Extension.mk [1, 2] false [7], Extension.mk [1, 2] true [8]] : List Extension).get ⟨i, hi⟩ =
        Extension.mk [1, 2] false [7] ∧
      ∀ e2 ∈ ([Extension.mk [1, 2] false [7], Extension.mk [1, 2] true [8]] :
        List Extension).take i, e2.Id ≠ [1, 2]) :=
  ⟨(GetExtWithOID_first_match [Extension.mk [1, 2] false [7]] [1, 3]).1.mpr (by decide),
   (GetExtWithOID_first_match [Extension.mk [1, 2] false [7], Extension.mk [1, 2] true [8]]
      [1, 2]).2 (Extension.mk [1, 2] false [7]) (by decide)⟩

/-- C3: a key-generation profile validates successfully if and only if
either its type is "rsa" with modulus length 2048 or 4096 and the curve
field unset, or its type is "ecdsa" with a curve among P-224, P-256, P-384,
P-521 and the modulus-length field unset; in particular a missing or
unrecognized type always fails, since it satisfies neither disjunct. -/
theorem keyGen_validate_characterization (k : keyGenConfig) :
    k.validate = none ↔
      (k.«Type» = "rsa" ∧ (k.RSAModLength = 2048 ∨ k.RSAModLength = 4096) ∧
        k.ECDSACurve = "") ∨
      (k.«Type» = "ecdsa" ∧ (k.ECDSACurve = "P-224" ∨ k.ECDSACurve = "P-256" ∨
        k.ECDSACurve = "P-384" ∨ k.ECDSACurve = "P-521") ∧ k.RSAModLength = 0) := by
  unfold keyGenConfig.validate
  split_ifs with h1 h2 h3 h4 h5 h6
  · simp_all
  · simp_all
  · simp_all
  · simp_all
  · simp_all
  · simp_all
  · refine iff_of_true rfl ?_
    rcases not_and_or.mp h2 with hr | he
    · rw [not_not] at hr
      left
      refine ⟨hr, ?_, ?_⟩
      · by_contra hmod
        push_neg at hmod
        exact h3 ⟨hr, hmod.1, hmod.2⟩
      · by_contra hc
        exact h4 ⟨hr, hc⟩
    · rw [not_not] at he
      right
      refine ⟨he, ?_, ?_⟩
      · by_contra hc
        exact h5 ⟨he, hc⟩
      · by_contra hm
        exact h6 ⟨he, hm⟩

/-- C9: the output-file check succeeds if and only if the path is non-empty
and no file already exists at that path; an empty path fails with
"outputs.NAME is required", and a path at which a file exists fails with an
error containing "already exists", so the ceremony never overwrites an
existing output file. -/
theorem checkOutputFile_characterization (fs : List String) (path name : String) :
    (checkOutputFile fs path name = none ↔ path ≠ "" ∧ path ∉ fs) ∧
    (path = "" → checkOutputFile fs path name =
      some ("outputs." ++ name ++ " is required")) ∧
    (path ≠ "" → path ∈ fs →
      ∃ pre post, checkOutputFile fs path name = some (pre ++ "already exists" ++ post)) := by
  unfold checkOutputFile
  split_ifs with h1 h2
  · exact ⟨iff_of_false (by simp) (by simp [h1]), fun _ => rfl, fun hne _ => absurd h1 hne⟩
  · refine ⟨iff_of_false (by simp) (by simp [h2]), fun he => absurd he h1, fun _ _ => ?_⟩
    exact ⟨"outputs." ++ name ++ " is " ++ path ++ ", which ", "",
      by rw [String.append_empty]⟩
  · exact ⟨iff_of_true rfl ⟨h1, h2⟩, fun he => absurd he h1, fun _ hm => absurd hm h2⟩

/-- Witness for C9 at concrete inputs: a non-empty fresh path passes, the
empty path yields the required-field error, and an occupied path yields a
message containing "already exists". -/
theorem checkOutputFile_characterization_witness :
    checkOutputFile ["other"] "fresh" "foo" = none ∧
    checkOutputFile [] "" "foo" = some "outputs.foo is required" ∧
    (∃ pre post, checkOutputFile ["taken"] "taken" "foo" =
      some (pre ++ "already exists" ++ post)) :=
  ⟨(checkOutputFile_characterization ["other"] "fresh" "foo").1.mpr (by decide),
   by
    have h := (checkOutputFile_characterization [] "" "foo").2.1 rfl
    simpa using h,
   (checkOutputFile_characterization ["taken"] "taken" "foo").2.2 (by decide) (by decide)⟩

/-- C1: calling the certificate write step with no recorded lint outcome
(`none` lint certificate) always returns the error
"linting was not performed prior to issuance", for every combination of the
other arguments, including when all of them are nil/empty; no certificate is
returned and no artifact is written in that case. -/
theorem signAndWriteCert_requires_lintCert (tbs issuer subjectPubKey : Option (List Nat))
    (signer : Option (List Nat → List Nat)) (certPath : String) :
    (signAndWriteCert tbs issuer subjectPubKey signer none certPath).err =
      some "linting was not performed prior to issuance" ∧
    (signAndWriteCert tbs issuer subjectPubKey signer none certPath).writes = [] ∧
    (signAndWriteCert tbs issuer subjectPubKey signer none certPath).cert = none :=
  ⟨rfl, rfl, rfl⟩

/-- C5: for every profile of every artifact kind, validation returns either
success or exactly one error (the result type `Option String` carries at
most one message, never an aggregate), and the reported error is the first
violated rule of the fixed ordered rule list of that kind, in which
required-field checks precede semantic cross-field checks; for a root
profile the order is pkcs11.module, pkcs11.store-key-with-label, the key
fields, the output paths, then the certificate-profile fields. -/
theorem validate_first_error_of_ordered_checks (fs : List String) (kg : keyGenConfig)
    (rc : rootConfig) (ct : certType) (ic : intermediateConfig) (cc : crossCertConfig)
    (cs : csrConfig) (kc : keyConfig) (oc : ocspRespConfig) (cl : crlConfig) :
    kg.validate = firstErr (keyGenChecks kg) ∧
    rootConfig.validate fs rc = firstErr (rootChecks fs rc) ∧
    intermediateConfig.validate fs ct ic = firstErr (intermediateChecks fs ct ic) ∧
    crossCertConfig.validate fs cc = firstErr (crossCertChecks fs cc) ∧
    csrConfig.validate fs cs = firstErr (csrChecks fs cs) ∧
    keyConfig.validate fs kc = firstErr (keyChecks fs kc) ∧
    ocspRespConfig.validate fs oc = firstErr (ocspChecks fs oc) ∧
    crlConfig.validate fs cl = firstErr (crlChecks fs cl) :=
  ⟨keyGen_validate_eq kg, root_validate_eq fs rc, intermediate_validate_eq fs ct ic,
   crossCert_validate_eq fs cc, csr_validate_eq fs cs, key_validate_eq fs kc,
   ocsp_validate_eq fs oc, crl_validate_eq fs cl⟩

/-- C2: for an intermediate or cross-certificate profile in which all other
required fields are populated, validation succeeds if and only if the
certificate-policy OID set has cardinality exactly one, and a cardinality
other than one fails with the message
"policy should be exactly BRs domain-validated for subordinate CAs". -/
theorem subordinate_policy_cardinality (fs : List String)
    (ic : intermediateConfig) (cc : crossCertConfig)
    (hic : ic.PKCS11.Module ≠ "" ∧ ic.PKCS11.SigningLabel ≠ "" ∧
      ic.Inputs.PublicKeyPath ≠ "" ∧ ic.Inputs.IssuerCertificatePath ≠ "" ∧
      ic.Outputs.CertificatePath ≠ "" ∧ ic.Outputs.CertificatePath ∉ fs ∧
      ic.CertProfile.NotBefore ≠ "" ∧ ic.CertProfile.NotAfter ≠ "" ∧
      ic.CertProfile.SignatureAlgorithm ≠ "" ∧ ic.CertProfile.CommonName ≠ "" ∧
      ic.CertProfile.Organization ≠ "" ∧ ic.CertProfile.Country ≠ "")
    (hcc : cc.PKCS11.Module ≠ "" ∧ cc.PKCS11.SigningLabel ≠ "" ∧
      cc.Inputs.PublicKeyPath ≠ "" ∧ cc.Inputs.IssuerCertificatePath ≠ "" ∧
      cc.Inputs.CertificateToCrossSignPath ≠ "" ∧
      cc.Outputs.CertificatePath ≠ "" ∧ cc.Outputs.CertificatePath ∉ fs ∧
      cc.CertProfile.NotBefore ≠ "" ∧ cc.CertProfile.NotAfter ≠ "" ∧
      cc.CertProfile.SignatureAlgorithm ≠ "" ∧ cc.CertProfile.CommonName ≠ "" ∧
      cc.CertProfile.Organization ≠ "" ∧ cc.CertProfile.Country ≠ "") :
    (intermediateConfig.validate fs intermediateCert ic = none ↔
      ic.CertProfile.Policies.length = 1) ∧
    (ic.CertProfile.Policies.length ≠ 1 →
      intermediateConfig.validate fs intermediateCert ic =
        some "policy should be exactly BRs domain-validated for subordinate CAs") ∧
    (crossCertConfig.validate fs cc = none ↔ cc.CertProfile.Policies.length = 1) ∧
    (cc.CertProfile.Policies.length ≠ 1 →
      crossCertConfig.validate fs cc =
        some "policy should be exactly BRs domain-validated for subordinate CAs") := by
  obtain ⟨a1, a2, a3, a4, a5, a6, a7, a8, a9, a10, a11, a12⟩ := hic
  obtain ⟨b1, b2, b3, b4, b5, b6, b7, b8, b9, b10, b11, b12⟩ := hcc
  have hi : intermediateConfig.validate fs intermediateCert ic =
      if ic.CertProfile.Policies.length ≠ 1 then
        some "policy should be exactly BRs domain-validated for subordinate CAs"
      else none := by
    simp [intermediateConfig.validate, PKCS11SigningConfig.validate, checkOutputFile,
      certProfile.verify, a1, a2, a3, a4, a5, a6, a7, a8, a9, a10, a11, a12]
  have hc : crossCertConfig.validate fs cc =
      if cc.CertProfile.Policies.length ≠ 1 then
        some "policy should be exactly BRs domain-validated for subordinate CAs"
      else none := by
    simp [crossCertConfig.validate, PKCS11SigningConfig.validate, checkOutputFile,
      certProfile.verify, b1, b2, b3, b4, b5, b6, b7, b8, b9, b10, b11, b12]
  refine ⟨?_, ?_, ?_, ?_⟩
  · rw [hi]
    by_cases hl : ic.CertProfile.Policies.length = 1 <;> simp [hl]
  · intro hl
    rw [hi, if_pos hl]
  · rw [hc]
    by_cases hl : cc.CertProfile.Policies.length = 1 <;> simp [hl]
  · intro hl
    rw [hc, if_pos hl]

/-- Concrete intermediate config with all required fields populated and a
single BR domain-validated policy OID, following the "good config" test
case. -/
def icExample : intermediateConfig :=
  { PKCS11 := { Module := "module", SigningLabel := "label" },
    Inputs := { PublicKeyPath := "path", IssuerCertificatePath := "path" },
    Outputs := { CertificatePath := "path" },
    CertProfile :=
      { NotBefore := "a", NotAfter := "b", SignatureAlgorithm := "c",
        CommonName := "d", Organization := "e", Country := "f", OCSPURL := "g",
        CRLURL := "h", IssuerURL := "i",
        Policies := [{ OID := "2.23.140.1.2.1" }] },
    SkipLints := [] }

/-- Concrete cross-certificate config with two policy OIDs, following the
"too many policy OIDs" test case. -/
def ccExample : crossCertConfig :=
  { PKCS11 := { Module := "module", SigningLabel := "label" },
    Inputs :=
      { PublicKeyPath := "path", IssuerCertificatePath := "path",
        CertificateToCrossSignPath := "path" },
    Outputs := { CertificatePath := "path" },
    CertProfile :=
      { NotBefore := "a", NotAfter := "b", SignatureAlgorithm := "c",
        CommonName := "d", Organization := "e", Country := "f", OCSPURL := "g",
        CRLURL := "h", IssuerURL := "i",
        Policies := [{ OID := "2.23.140.1.2.1" }, { OID := "6.6.6" }] },
    SkipLints := [] }

/-- Witness for C2: the populated intermediate config with exactly one
policy OID passes, and the cross-certificate config with two policy OIDs
fails with the subordinate-CA policy message. -/
theorem subordinate_policy_cardinality_witness :
    intermediateConfig.validate [] intermediateCert icExample = none ∧
    crossCertConfig.validate [] ccExample =
      some "policy should be exactly BRs domain-validated for subordinate CAs" :=
  ⟨(subordinate_policy_cardinality [] icExample ccExample (by decide)
      (by decide)).1.mpr (by decide),
   (subordinate_policy_cardinality [] icExample ccExample (by decide)
      (by decide)).2.2.2 (by decide)⟩

/-- C4: for an OCSP-response profile whose other required fields are
populated, validation accepts status "good" or "revoked" and rejects any
other status value (the empty/missing status included) with the exact error
message about the permitted statuses. -/
theorem ocsp_status_validation (fs : List String) (c : ocspRespConfig)
    (h : c.PKCS11.Module ≠ "" ∧ c.PKCS11.SigningLabel ≠ "" ∧
      c.Inputs.CertificatePath ≠ "" ∧ c.Inputs.IssuerCertificatePath ≠ "" ∧
      c.Outputs.ResponsePath ≠ "" ∧ c.Outputs.ResponsePath ∉ fs ∧
      c.OCSPProfile.ThisUpdate ≠ "" ∧ c.OCSPProfile.NextUpdate ≠ "") :
    (ocspRespConfig.validate fs c = none ↔
      (c.OCSPProfile.Status = "good" ∨ c.OCSPProfile.Status = "revoked")) ∧
    (c.OCSPProfile.Status ≠ "good" → c.OCSPProfile.Status ≠ "revoked" →
      ocspRespConfig.validate fs c =
        some "ocsp-profile.status must be either \"good\" or \"revoked\"") := by
  obtain ⟨h1, h2, h3, h4, h5, h6, h7, h8⟩ := h
  have hv : ocspRespConfig.validate fs c =
      if c.OCSPProfile.Status ≠ "good" ∧ c.OCSPProfile.Status ≠ "revoked" then
        some "ocsp-profile.status must be either \"good\" or \"revoked\""
      else none := by
    simp [ocspRespConfig.validate, PKCS11SigningConfig.validate, checkOutputFile,
      h1, h2, h3, h4, h5, h6, h7, h8]
  refine ⟨?_, ?_⟩
  · rw [hv]
    by_cases hg : c.OCSPProfile.Status = "good"
    · simp [hg]
    · by_cases hr : c.OCSPProfile.Status = "revoked" <;> simp [hg, hr]
  · intro hg hr
    rw [hv, if_pos ⟨hg, hr⟩]

/-- Concrete OCSP-response config with status "good", following the
"good config" test case. -/
def ocspGoodExample : ocspRespConfig :=
  { PKCS11 := { Module := "module", SigningLabel := "label" },
    Inputs :=
      { CertificatePath := "path", IssuerCertificatePath := "path",
        DelegatedIssuerCertificatePath := "" },
    Outputs := { ResponsePath := "path" },
    OCSPProfile :=
      { ThisUpdate := "this-update", NextUpdate := "next-update",
        Status := "good" } }

/-- Concrete OCSP-response config whose status is "unknown". -/
def ocspUnknownExample : ocspRespConfig :=
  { PKCS11 := { Module := "module", SigningLabel := "label" },
    Inputs :=
      { CertificatePath := "path", IssuerCertificatePath := "path",
        DelegatedIssuerCertificatePath := "" },
    Outputs := { ResponsePath := "path" },
    OCSPProfile :=
      { ThisUpdate := "this-update", NextUpdate := "next-update",
        Status := "unknown" } }

/-- Witness for C4: the populated config with status "good" passes and the
one with status "unknown" fails with the exact status message. -/
theorem ocsp_status_validation_witness :
    ocspRespConfig.validate [] ocspGoodExample = none ∧
    ocspRespConfig.validate [] ocspUnknownExample =
      some "ocsp-profile.status must be either \"good\" or \"revoked\"" :=
  ⟨(ocsp_status_validation [] ocspGoodExample (by decide)).1.mpr (by decide),
   (ocsp_status_validation [] ocspUnknownExample (by decide)).2 (by decide) (by decide)⟩

/-- C8: for a root profile in which the PKCS#11 module, storage label and
key fields are populated but outputs.public-key-path is empty, validation
fails with the exact message "outputs.public-key-path is required". -/
theorem root_missing_public_key_path (fs : List String) (c : rootConfig)
    (h1 : c.PKCS11.Module ≠ "") (h2 : c.PKCS11.StoreLabel ≠ "")
    (h3 : c.Key.validate = none) (h4 : c.Outputs.PublicKeyPath = "") :
    rootConfig.validate fs c = some "outputs.public-key-path is required" := by
  simp [rootConfig.validate, PKCS11KeyGenConfig.validate, checkOutputFile,
    h1, h2, h3, h4]

/-- Concrete root config with PKCS#11 and key fields populated but an empty
public-key output path, following the "no outputs.public-key-path" test
case. -/
def rootMissingPubExample : rootConfig :=
  { PKCS11 := { Module := "module", StoreLabel := "label" },
    Key := { «Type» := "rsa", RSAModLength := 2048, ECDSACurve := "" },
    Outputs := { PublicKeyPath := "", CertificatePath := "" },
    CertProfile :=
      { NotBefore := "", NotAfter := "", SignatureAlgorithm := "",
        CommonName := "", Organization := "", Country := "", OCSPURL := "",
        CRLURL := "", IssuerURL := "", Policies := [] },
    SkipLints := [] }

/-- Witness for C8 at the concrete root config. -/
theorem root_missing_public_key_path_witness :
    rootConfig.validate [] rootMissingPubExample =
      some "outputs.public-key-path is required" :=
  root_missing_public_key_path [] rootMissingPubExample (by decide) (by decide) rfl rfl

/-- The revoked-entry loop succeeds exactly when every entry carries a
certificate path, a revocation date and a non-zero reason. -/
theorem crlEntriesValidate_eq_none_iff (l : List revokedCertificate) :
    crlEntriesValidate l = none ↔
      ∀ rc ∈ l, rc.CertificatePath ≠ "" ∧ rc.RevocationDate ≠ "" ∧
        rc.RevocationReason ≠ 0 := by
  induction l with
  | nil => simp [crlEntriesValidate]
  | cons x rest ih =>
    unfold crlEntriesValidate
    split_ifs with a b c <;> simp_all

/-- If every entry carries a path and a date but some entry has the default
zero reason, the revoked-entry loop reports the missing revocation
reason. -/
theorem crlEntriesValidate_missing_reason (l : List revokedCertificate)
    (hok : ∀ rc ∈ l, rc.CertificatePath ≠ "" ∧ rc.RevocationDate ≠ "")
    (hz : ∃ rc ∈ l, rc.RevocationReason = 0) :
    crlEntriesValidate l =
      some "crl-profile.revoked-certificates.revocation-reason is required" := by
  induction l with
  | nil => simp at hz
  | cons x rest ih =>
    obtain ⟨hx1, hx2⟩ := hok x (by simp)
    unfold crlEntriesValidate
    rw [if_neg hx1, if_neg hx2]
    by_cases hr : x.RevocationReason = 0
    · rw [if_pos hr]
    · rw [if_neg hr]
      refine ih (fun rc hrc => hok rc (by simp [hrc])) ?_
      obtain ⟨rc, hrc, hrz⟩ := hz
      rcases List.mem_cons.mp hrc with rfl | hmem
      · exact absurd hrz hr
      · exact ⟨rc, hmem, hrz⟩

/-- C6: for a CRL profile whose PKCS#11, input and output fields are
populated, validation requires this-update (failing with
"crl-profile.this-update is required"), next-update (failing with
"crl-profile.next-update is required"), a non-zero CRL number (failing
with "crl-profile.number must be non-zero") and an
issuing-distribution-point (failing with
"crl-profile.issuing-distribution-point is required"), and it succeeds
exactly when all four hold and every revoked-certificate entry carries a
non-empty certificate reference, a revocation date and a revocation
reason. -/
theorem crl_required_fields (fs : List String) (c : crlConfig)
    (h : c.PKCS11.Module ≠ "" ∧ c.PKCS11.SigningLabel ≠ "" ∧
      c.Inputs.IssuerCertificatePath ≠ "" ∧ c.Outputs.CRLPath ≠ "" ∧
      c.Outputs.CRLPath ∉ fs) :
    (c.CRLProfile.ThisUpdate = "" →
      crlConfig.validate fs c = some "crl-profile.this-update is required") ∧
    (c.CRLProfile.ThisUpdate ≠ "" → c.CRLProfile.NextUpdate = "" →
      crlConfig.validate fs c = some "crl-profile.next-update is required") ∧
    (c.CRLProfile.ThisUpdate ≠ "" → c.CRLProfile.NextUpdate ≠ "" →
      c.CRLProfile.Number = 0 →
      crlConfig.validate fs c = some "crl-profile.number must be non-zero") ∧
    (c.CRLProfile.ThisUpdate ≠ "" → c.CRLProfile.NextUpdate ≠ "" →
      c.CRLProfile.Number ≠ 0 → c.CRLProfile.IssuingDistributionPoint = "" →
      crlConfig.validate fs c = some "crl-profile.issuing-distribution-point is required") ∧
    (crlConfig.validate fs c = none ↔
      c.CRLProfile.ThisUpdate ≠ "" ∧ c.CRLProfile.NextUpdate ≠ "" ∧
      c.CRLProfile.Number ≠ 0 ∧ c.CRLProfile.IssuingDistributionPoint ≠ "" ∧
      ∀ rc ∈ c.CRLProfile.RevokedCertificates,
        rc.CertificatePath ≠ "" ∧ rc.RevocationDate ≠ "" ∧
        rc.RevocationReason ≠ 0) := by
  obtain ⟨h1, h2, h3, h4, h5⟩ := h
  have hv : crlConfig.validate fs c =
      if c.CRLProfile.ThisUpdate = "" then some "crl-profile.this-update is required"
      else if c.CRLProfile.NextUpdate = "" then some "crl-profile.next-update is required"
      else if c.CRLProfile.Number = 0 then some "crl-profile.number must be non-zero"
      else if c.CRLProfile.IssuingDistributionPoint = "" then
        some "crl-profile.issuing-distribution-point is required"
      else crlEntriesValidate c.CRLProfile.RevokedCertificates := by
    simp [crlConfig.validate, PKCS11SigningConfig.validate, checkOutputFile,
      h1, h2, h3, h4, h5]
  refine ⟨?_, ?_, ?_, ?_, ?_⟩
  · intro ht
    rw [hv, if_pos ht]
  · intro ht hnu
    rw [hv, if_neg ht, if_pos hnu]
  · intro ht hnu hn
    rw [hv, if_neg ht, if_neg hnu, if_pos hn]
  · intro ht hnu hn hidp
    rw [hv, if_neg ht, if_neg hnu, if_neg hn, if_pos hidp]
  · rw [hv]
    by_cases ht : c.CRLProfile.ThisUpdate = ""
    · simp [ht]
    · by_cases hnu : c.CRLProfile.NextUpdate = ""
      · simp [ht, hnu]
      · by_cases hn : c.CRLProfile.Number = 0
        · simp [ht, hnu, hn]
        · by_cases hidp : c.CRLProfile.IssuingDistributionPoint = ""
          · simp [ht, hnu, hn, hidp]
          · simp [ht, hnu, hn, hidp, crlEntriesValidate_eq_none_iff]

/-- C7: for a CRL profile whose other required fields are populated and
whose revoked entries all carry a certificate reference and a revocation
date, if some entry lacks a revocation reason (has the default zero value),
validation fails with the exact message
"crl-profile.revoked-certificates.revocation-reason is required". -/
theorem crl_missing_revocation_reason (fs : List String) (c : crlConfig)
    (h : c.PKCS11.Module ≠ "" ∧ c.PKCS11.SigningLabel ≠ "" ∧
      c.Inputs.IssuerCertificatePath ≠ "" ∧ c.Outputs.CRLPath ≠ "" ∧
      c.Outputs.CRLPath ∉ fs ∧ c.CRLProfile.ThisUpdate ≠ "" ∧
      c.CRLProfile.NextUpdate ≠ "" ∧ c.CRLProfile.Number ≠ 0 ∧
      c.CRLProfile.IssuingDistributionPoint ≠ "")
    (hok : ∀ rc ∈ c.CRLProfile.RevokedCertificates,
      rc.CertificatePath ≠ "" ∧ rc.RevocationDate ≠ "")
    (hz : ∃ rc ∈ c.CRLProfile.RevokedCertificates, rc.RevocationReason = 0) :
    crlConfig.validate fs c =
      some "crl-profile.revoked-certificates.revocation-reason is required" := by
  obtain ⟨h1, h2, h3, h4, h5, h6, h7, h8, h9⟩ := h
  have hv : crlConfig.validate fs c =
      crlEntriesValidate c.CRLProfile.RevokedCertificates := by
    simp [crlConfig.validate, PKCS11SigningConfig.validate, checkOutputFile,
      h1, h2, h3, h4, h5, h6, h7, h8, h9]
  rw [hv]
  exact crlEntriesValidate_missing_reason c.CRLProfile.RevokedCertificates hok hz

/-- Concrete fully populated CRL config, following the "good" test case. -/
def crlGoodExample : crlConfig :=
  { PKCS11 := { Module := "module", SigningLabel := "label" },
    Inputs := { IssuerCertificatePath := "path" },
    Outputs := { CRLPath := "path" },
    CRLProfile :=
      { ThisUpdate := "this-update", NextUpdate := "next-update", Number := 1,
        RevokedCertificates :=
          [{ CertificatePath := "path", RevocationDate := "date",
             RevocationReason := 1 }],
        IssuingDistributionPoint := "http://example.com" } }

/-- Concrete CRL config with the CRL number left at zero. -/
def crlZeroNumberExample : crlConfig :=
  { PKCS11 := { Module := "module", SigningLabel := "label" },
    Inputs := { IssuerCertificatePath := "path" },
    Outputs := { CRLPath := "path" },
    CRLProfile :=
      { ThisUpdate := "this-update", NextUpdate := "next-update", Number := 0,
        RevokedCertificates := [],
        IssuingDistributionPoint := "http://example.com" } }

/-- Concrete CRL config with no issuing-distribution-point, following the
"no issuing distribution point path provided" test case (its entry also
lacks a reason, yet the distribution-point error is reported first). -/
def crlNoIDPExample : crlConfig :=
  { PKCS11 := { Module := "module", SigningLabel := "label" },
    Inputs := { IssuerCertificatePath := "path" },
    Outputs := { CRLPath := "path" },
    CRLProfile :=
      { ThisUpdate := "this-update", NextUpdate := "next-update", Number := 1,
        RevokedCertificates :=
          [{ CertificatePath := "path", RevocationDate := "date",
             RevocationReason := 0 }],
        IssuingDistributionPoint := "" } }

/-- Concrete CRL config with no this-update, following the
"no crl-profile.this-update" test case. -/
def crlNoThisUpdateExample : crlConfig :=
  { PKCS11 := { Module := "module", SigningLabel := "label" },
    Inputs := { IssuerCertificatePath := "path" },
    Outputs := { CRLPath := "path" },
    CRLProfile :=
      { ThisUpdate := "", NextUpdate := "next-update", Number := 1,
        RevokedCertificates := [],
        IssuingDistributionPoint := "http://example.com" } }

/-- Concrete CRL config with no next-update, following the
"no crl-profile.next-update" test case. -/
def crlNoNextUpdateExample : crlConfig :=
  { PKCS11 := { Module := "module", SigningLabel := "label" },
    Inputs := { IssuerCertificatePath := "path" },
    Outputs := { CRLPath := "path" },
    CRLProfile :=
      { ThisUpdate := "this-update", NextUpdate := "", Number := 1,
        RevokedCertificates := [],
        IssuingDistributionPoint := "http://example.com" } }

/-- Witness for C6 at concrete CRL configs: the fully populated config
passes, and the configs missing this-update, next-update, the CRL number
and the issuing-distribution-point each fail with the corresponding exact
message. -/
theorem crl_required_fields_witness :
    crlConfig.validate [] crlGoodExample = none ∧
    crlConfig.validate [] crlNoThisUpdateExample =
      some "crl-profile.this-update is required" ∧
    crlConfig.validate [] crlNoNextUpdateExample =
      some "crl-profile.next-update is required" ∧
    crlConfig.validate [] crlZeroNumberExample =
      some "crl-profile.number must be non-zero" ∧
    crlConfig.validate [] crlNoIDPExample =
      some "crl-profile.issuing-distribution-point is required" :=
  ⟨(crl_required_fields [] crlGoodExample (by decide)).2.2.2.2.mpr (by decide),
   (crl_required_fields [] crlNoThisUpdateExample (by decide)).1 rfl,
   (crl_required_fields [] crlNoNextUpdateExample (by decide)).2.1 (by decide) rfl,
   (crl_required_fields [] crlZeroNumberExample (by decide)).2.2.1
     (by decide) (by decide) rfl,
   (crl_required_fields [] crlNoIDPExample (by decide)).2.2.2.1
     (by decide) (by decide) (by decide) rfl⟩

/-- Concrete CRL config whose single revoked entry has the default zero
revocation reason, following the "no revocation reason" test case. -/
def crlNoReasonExample : crlConfig :=
  { PKCS11 := { Module := "module", SigningLabel := "label" },
    Inputs := { IssuerCertificatePath := "path" },
    Outputs := { CRLPath := "path" },
    CRLProfile :=
      { ThisUpdate := "this-update", NextUpdate := "next-update", Number := 1,
        RevokedCertificates :=
          [{ CertificatePath := "path", RevocationDate := "date",
             RevocationReason := 0 }],
        IssuingDistributionPoint := "http://example.com" } }

/-- Witness for C7 at the concrete CRL config with a reason-less entry. -/
theorem crl_missing_revocation_reason_witness :
    crlConfig.validate [] crlNoReasonExample =
      some "crl-profile.revoked-certificates.revocation-reason is required" :=
  crl_missing_revocation_reason [] crlNoReasonExample (by decide) (by decide) (by decide)
